import Mathlib

/-!
Verification of the collab-dev metrics engine.

The engine consumes a flat collection of pull-request lifecycle events and
derives aggregate metrics (approval time, merge time, review turnaround,
coverage, funnel, bot/contribution breakdown, Sankey flow graph).  We embed
each metric module as a pure Lean function over a list of event rows and
prove the stated properties.

Conventions of the embedding:
* a DataFrame is a `List Event`, one element per row, in row order;
* timestamps are integers (seconds); durations in hours are rationals;
* nullable string cells are `Option String`;
* pandas `groupby` sorts the group keys ascending, and `first()` takes the
  first row of the group in row order; both are modelled explicitly;
* `Series.unique()` / `drop_duplicates` keep the first occurrence.
-/

namespace CollabDev

/-- One row of the event table (`all_events.csv`): a PR lifecycle event. -/
structure Event where
  time : Int
  pr_number : Int
  event_type : String
  actor : Option String := none
  target_user : Option String := none
  lines_added : Int := 0
  lines_deleted : Int := 0
  is_bot : Bool := false
  is_core_team : Bool := false
deriving DecidableEq, Repr

/-- First-occurrence deduplication (pandas `Series.unique`). -/
def uniqueAux [DecidableEq α] (seen : List α) : List α → List α
  | [] => []
  | x :: xs => if x ∈ seen then uniqueAux seen xs else x :: uniqueAux (x :: seen) xs

/-- Distinct values in first-appearance order (pandas `Series.unique`). -/
def uniqueList [DecidableEq α] (xs : List α) : List α := uniqueAux [] xs

/-- Ascending sort of integer keys (pandas `groupby` sorts group keys). -/
def sortIntKeys (xs : List Int) : List Int := List.insertionSort (· ≤ ·) xs

/-- Sort a list of rationals ascending (used by median / percentile). -/
def sortQ (xs : List ℚ) : List ℚ := List.insertionSort (· ≤ ·) xs

/-- Median of a list of rationals, as pandas `Series.median`: sort, take the
middle element (odd length) or the mean of the two middle elements (even). -/
def medianQ (xs : List ℚ) : ℚ :=
  let ys := sortQ xs
  let n := ys.length
  if n % 2 = 1 then ys.getD (n / 2) 0
  else (ys.getD (n / 2 - 1) 0 + ys.getD (n / 2) 0) / 2

/-- Percentile with linear interpolation (as `numpy.percentile`), at an
integer percent `p`:
on the sorted data `ys` of length `n`, the rank is `h = p*(n-1)/100`; the
result is `ys[⌊h⌋] + (h - ⌊h⌋) * (ys[⌊h⌋+1] - ys[⌊h⌋])`.  The rank is kept
in exact arithmetic: `⌊h⌋ = p*(n-1) / 100` and `h - ⌊h⌋ = (p*(n-1) % 100)/100`. -/
def percentileQ (xs : List ℚ) (p : Nat) : ℚ :=
  let ys := sortQ xs
  let n := ys.length
  let i := p * (n - 1) / 100
  let r := p * (n - 1) % 100
  ys.getD i 0 + ((r : ℚ) / 100) * (ys.getD (i + 1) (ys.getD i 0) - ys.getD i 0)

/-! ## PR sizing (components/charts/approval_time/data.py, get_pr_size_category) -/

/-- Size category of a PR by total lines changed, from `get_pr_size_category`. -/
def get_pr_size_category (total_lines_changed : Int) : String :=
  if total_lines_changed < 10 then "XS (<10 lines)"
  else if total_lines_changed < 100 then "S (10-99 lines)"
  else if total_lines_changed < 500 then "M (100-499 lines)"
  else if total_lines_changed < 1000 then "L (500-999 lines)"
  else "XL (1000+ lines)"

/-! ## Merge time (components/charts/pr_merge_time/data.py, calculate_pmt) -/

/-- Durations, in hours, from `pr_created` to `pr_merged` for each PR having
both events: the inner join of the `pr_created` rows with the `pr_merged`
rows on `pr_number`, in left-row-major order (pandas `pd.merge`). -/
def mergeDurations (df : List Event) : List ℚ :=
  let created := df.filter (fun e => e.event_type == "pr_created")
  let merged := df.filter (fun e => e.event_type == "pr_merged")
  (created.map (fun c =>
    (merged.filter (fun m => m.pr_number == c.pr_number)).map
      (fun m => ((m.time - c.time : Int) : ℚ) / 3600))).flatten

/-- Embedding of `calculate_pmt`: `(median, merge-time list, (p25, p50, p75))`,
or `none` (the `(None, None, None)` tuple) for an empty input or when no PR
has both a creation and a merge event. -/
def calculate_pmt (df : List Event) : Option (ℚ × List ℚ × (ℚ × ℚ × ℚ)) :=
  if df.isEmpty then none
  else
    let durs := mergeDurations df
    if durs.isEmpty then none
    else some (medianQ durs, durs,
      (percentileQ durs 25, percentileQ durs 50, percentileQ durs 75))

/-- The getD of a sorted list at an in-bounds index ignores the default. -/
theorem getD_eq_getD_of_lt (ys : List ℚ) (i : Nat) (h : i < ys.length) (d₁ d₂ : ℚ) :
    ys.getD i d₁ = ys.getD i d₂ := by
  rw [List.getD_eq_getElem ys d₁ h, List.getD_eq_getElem ys d₂ h]

/-- Median agrees with the 50th percentile under linear interpolation. -/
theorem medianQ_eq_percentileQ_50 (xs : List ℚ) (h : xs ≠ []) :
    medianQ xs = percentileQ xs 50 := by
  unfold medianQ percentileQ
  simp only []
  have hlen : 1 ≤ (sortQ xs).length := by
    have := (List.perm_insertionSort (· ≤ ·) xs).length_eq
    have hx : 0 < xs.length := List.length_pos.2 h
    simp only [sortQ]
    omega
  rcases Nat.even_or_odd (sortQ xs).length with ⟨k, hk⟩ | ⟨k, hk⟩
  · -- even length, with k ≥ 1
    have hi : 50 * ((sortQ xs).length - 1) / 100 = k - 1 := by omega
    have hr : 50 * ((sortQ xs).length - 1) % 100 = 50 := by omega
    have h1 : (sortQ xs).length / 2 - 1 = k - 1 := by omega
    have h2 : (sortQ xs).length / 2 = k := by omega
    have hklt : k - 1 + 1 < (sortQ xs).length := by omega
    have hkk : k - 1 + 1 = k := by omega
    rw [if_neg (by omega), hi, hr, h1, h2,
      getD_eq_getD_of_lt (sortQ xs) (k - 1 + 1) hklt ((sortQ xs).getD (k - 1) 0) 0, hkk]
    norm_num
    ring
  · -- odd length
    have hi : 50 * ((sortQ xs).length - 1) / 100 = k := by omega
    have hr : 50 * ((sortQ xs).length - 1) % 100 = 0 := by omega
    have h2 : (sortQ xs).length / 2 = k := by omega
    rw [if_pos (by omega), hi, hr, h2]
    norm_num

/-! ## List helper lemmas -/

theorem mem_uniqueAux [DecidableEq α] (a : α) :
    ∀ (xs seen : List α), a ∈ uniqueAux seen xs ↔ a ∈ xs ∧ a ∉ seen := by
  intro xs
  induction xs with
  | nil => intro seen; simp [uniqueAux]
  | cons x xs ih =>
    intro seen
    by_cases hx : x ∈ seen
    · rw [show uniqueAux seen (x :: xs) = uniqueAux seen xs from by
        simp [uniqueAux, hx], ih seen]
      by_cases hax : a = x
      · subst hax; simp [hx]
      · simp only [List.mem_cons]
        tauto
    · rw [show uniqueAux seen (x :: xs) = x :: uniqueAux (x :: seen) xs from by
        simp [uniqueAux, hx]]
      by_cases hax : a = x
      · subst hax; simp [ih (a :: seen), hx]
      · simp only [List.mem_cons, ih (x :: seen)]
        tauto

theorem mem_uniqueList [DecidableEq α] (a : α) (xs : List α) :
    a ∈ uniqueList xs ↔ a ∈ xs := by
  simp [uniqueList, mem_uniqueAux]

theorem nodup_uniqueAux [DecidableEq α] :
    ∀ (xs seen : List α), (uniqueAux seen xs).Nodup := by
  intro xs
  induction xs with
  | nil => intro seen; simp [uniqueAux]
  | cons x xs ih =>
    intro seen
    by_cases hx : x ∈ seen
    · simpa only [uniqueAux, if_pos hx] using ih seen
    · simp only [uniqueAux, if_neg hx, List.nodup_cons]
      refine ⟨fun hmem => ?_, ih (x :: seen)⟩
      exact ((mem_uniqueAux x xs (x :: seen)).1 hmem).2 (List.mem_cons_self x seen)

theorem nodup_uniqueList [DecidableEq α] (xs : List α) : (uniqueList xs).Nodup :=
  nodup_uniqueAux xs []

theorem filterMap_filter_isSome (f : α → Option β) (l : List α) :
    (l.filter (fun a => (f a).isSome)).filterMap f = l.filterMap f := by
  induction l with
  | nil => rfl
  | cons x xs ih =>
    cases hfx : f x with
    | none => simp [List.filter_cons, List.filterMap_cons, hfx, ih]
    | some b => simp [List.filter_cons, List.filterMap_cons, hfx, ih]

/-- A filterMap taken over two duplicate-free key lists agreeing on the keys
that map to something gives permuted results. -/
theorem perm_filterMap_of_nodup (f : α → Option β) [DecidableEq α]
    {l₁ l₂ : List α} (h₁ : l₁.Nodup) (h₂ : l₂.Nodup)
    (h : ∀ a, (f a).isSome → (a ∈ l₁ ↔ a ∈ l₂)) :
    List.Perm (l₁.filterMap f) (l₂.filterMap f) := by
  rw [← filterMap_filter_isSome f l₁, ← filterMap_filter_isSome f l₂]
  refine List.Perm.filterMap f ?_
  refine (List.perm_ext_iff_of_nodup (h₁.filter _) (h₂.filter _)).2 ?_
  intro a
  simp only [List.mem_filter]
  constructor
  · rintro ⟨ha, hs⟩; exact ⟨(h a hs).1 ha, hs⟩
  · rintro ⟨ha, hs⟩; exact ⟨(h a hs).2 ha, hs⟩

theorem sortQ_eq_of_perm {xs ys : List ℚ} (h : List.Perm xs ys) : sortQ xs = sortQ ys :=
  List.eq_of_perm_of_sorted
    ((List.perm_insertionSort _ xs).trans (h.trans (List.perm_insertionSort _ ys).symm))
    (List.sorted_insertionSort _ xs) (List.sorted_insertionSort _ ys)

theorem medianQ_perm {xs ys : List ℚ} (h : List.Perm xs ys) : medianQ xs = medianQ ys := by
  unfold medianQ
  rw [sortQ_eq_of_perm h]

/-! ## Approval time (components/charts/approval_time/data.py, calculate_pat) -/

/-- Time of the first row, in row order, of `rows` belonging to PR `p`
(pandas `groupby("pr_number")["time"].first()`). -/
def firstTimeFor (rows : List Event) (p : Int) : Option Int :=
  ((rows.filter (fun e => e.pr_number == p)).head?).map (fun e => e.time)

/-- Durations, in hours, from the first `review_requested` row to the first
`review_approved` row (both in row order, as pandas `groupby(...).first()`
takes them) for each PR having both; group keys ascending as pandas sorts
them. -/
def patDurations (df : List Event) : List ℚ :=
  let reqs := df.filter (fun e => e.event_type == "review_requested")
  let apps := df.filter (fun e => e.event_type == "review_approved")
  (sortIntKeys (uniqueList (reqs.map (fun e => e.pr_number)))).filterMap (fun p =>
    match firstTimeFor reqs p, firstTimeFor apps p with
    | some r, some a => some (((a - r : Int) : ℚ) / 3600)
    | _, _ => none)

/-- Embedding of `calculate_pat`: overall median approval time in hours, or
`none` for an empty input or when no PR has both a request and an approval. -/
def calculate_pat (df : List Event) : Option ℚ :=
  if df.isEmpty then none
  else
    let durs := patDurations df
    if durs.isEmpty then none else some (medianQ durs)

/-- Earliest time among the rows of `rows` belonging to PR `p`. -/
def minTimeFor (rows : List Event) (p : Int) : Option Int :=
  ((rows.filter (fun e => e.pr_number == p)).map (fun e => e.time)).min?

/-- Modelled from the spec's words (the claimed behaviour, for comparison
with `calculate_pat`): for each PR take the earliest `review_requested` time
and the earliest `review_approved` time, as if events were sorted by time
within the PR first. -/
def calculate_pat_specModel (df : List Event) : Option ℚ :=
  if df.isEmpty then none
  else
    let reqs := df.filter (fun e => e.event_type == "review_requested")
    let apps := df.filter (fun e => e.event_type == "review_approved")
    let durs := (sortIntKeys (uniqueList (reqs.map (fun e => e.pr_number)))).filterMap (fun p =>
      match minTimeFor reqs p, minTimeFor apps p with
      | some r, some a => some (((a - r : Int) : ℚ) / 3600)
      | _, _ => none)
    if durs.isEmpty then none else some (medianQ durs)

/-- Time of the first row of `df`, in row order, with the given event type and
PR number. -/
def firstEventTimeFor (df : List Event) (et : String) (p : Int) : Option Int :=
  ((df.filter (fun e => e.event_type == et && e.pr_number == p)).head?).map (fun e => e.time)

/-- Direct per-PR reformulation of the approval-time durations: every PR of
the input, in first-appearance order, contributes the hours between its first
`review_requested` row and its first `review_approved` row when both exist. -/
def patDurationsDirect (df : List Event) : List ℚ :=
  (uniqueList (df.map (fun e => e.pr_number))).filterMap (fun p =>
    match firstEventTimeFor df "review_requested" p, firstEventTimeFor df "review_approved" p with
    | some r, some a => some (((a - r : Int) : ℚ) / 3600)
    | _, _ => none)

theorem firstTimeFor_filter (df : List Event) (et : String) (p : Int) :
    firstTimeFor (df.filter (fun e => e.event_type == et)) p = firstEventTimeFor df et p := by
  unfold firstTimeFor firstEventTimeFor
  rw [List.filter_filter]
  congr 2
  apply List.filter_congr
  intro e _
  exact Bool.and_comm _ _

theorem exists_of_firstEventTimeFor {df : List Event} {et : String} {p : Int} {t : Int}
    (h : firstEventTimeFor df et p = some t) :
    ∃ e ∈ df, e.event_type = et ∧ e.pr_number = p := by
  unfold firstEventTimeFor at h
  rcases Option.map_eq_some'.1 h with ⟨e, he, _⟩
  have hmem := List.mem_of_mem_head? he
  rcases List.mem_filter.1 hmem with ⟨hdf, hb⟩
  simp only [Bool.and_eq_true] at hb
  exact ⟨e, hdf, by simpa using hb.1, by simpa using hb.2⟩

/-- The groupby-based approval durations are a permutation of the direct
per-PR formulation. -/
theorem patDurations_perm (df : List Event) :
    List.Perm (patDurations df) (patDurationsDirect df) := by
  unfold patDurations patDurationsDirect
  simp only []
  have hfun : (fun p =>
      match firstTimeFor (df.filter (fun e => e.event_type == "review_requested")) p,
            firstTimeFor (df.filter (fun e => e.event_type == "review_approved")) p with
      | some r, some a => some (((a - r : Int) : ℚ) / 3600)
      | _, _ => none)
      = (fun p =>
      match firstEventTimeFor df "review_requested" p, firstEventTimeFor df "review_approved" p with
      | some r, some a => some (((a - r : Int) : ℚ) / 3600)
      | _, _ => none) := by
    funext p
    rw [firstTimeFor_filter, firstTimeFor_filter]
  rw [hfun]
  apply perm_filterMap_of_nodup
  · exact ((List.perm_insertionSort _ _).nodup_iff).2
      (nodup_uniqueList (List.map (fun e => e.pr_number)
        (df.filter (fun e => e.event_type == "review_requested"))))
  · exact nodup_uniqueList _
  · intro p hp
    have hreq : ∃ t, firstEventTimeFor df "review_requested" p = some t := by
      cases h1 : firstEventTimeFor df "review_requested" p with
      | some t => exact ⟨t, rfl⟩
      | none =>
        cases h2 : firstEventTimeFor df "review_approved" p with
        | some t => rw [h1, h2] at hp; simp at hp
        | none => rw [h1, h2] at hp; simp at hp
    rcases hreq with ⟨t, ht⟩
    rcases exists_of_firstEventTimeFor ht with ⟨e, hdf, het, hpr⟩
    constructor
    · intro _
      rw [mem_uniqueList]
      exact List.mem_map.2 ⟨e, hdf, hpr⟩
    · intro _
      rw [sortIntKeys, (List.perm_insertionSort _ _).mem_iff, mem_uniqueList]
      refine List.mem_map.2 ⟨e, ?_, hpr⟩
      exact List.mem_filter.2 ⟨hdf, by simpa using het⟩

/-- C1 (amended): `calculate_pat` takes, per PR, the first `review_requested`
row and the first `review_approved` row in input row order (it does not sort
by time within the PR); a PR contributes the signed duration in hours exactly
when both exist, and the result is the median of those durations, `none` when
no PR has both. -/
theorem C1_approval_time_first_in_row_order (df : List Event) :
    calculate_pat df =
      if (patDurationsDirect df).isEmpty then none
      else some (medianQ (patDurationsDirect df)) := by
  unfold calculate_pat
  simp only []
  by_cases hdf : df.isEmpty
  · have hnil : df = [] := by simpa using hdf
    subst hnil
    simp [patDurationsDirect, uniqueList, uniqueAux]
  · rw [if_neg hdf]
    have hperm := patDurations_perm df
    have hemp : (patDurations df).isEmpty = (patDurationsDirect df).isEmpty := by
      rcases h1 : patDurations df with _ | ⟨x, xs⟩
      · rcases h2 : patDurationsDirect df with _ | ⟨y, ys⟩
        · rfl
        · rw [h1, h2] at hperm
          exact absurd hperm.symm (List.cons_ne_nil y ys |> fun hne hp => hne (hp.eq_nil))
      · rcases h2 : patDurationsDirect df with _ | ⟨y, ys⟩
        · rw [h1, h2] at hperm
          exact absurd hperm (List.cons_ne_nil x xs |> fun hne hp => hne (hp.eq_nil))
        · rfl
    rw [hemp, medianQ_perm hperm]

/-- Concrete input whose `review_requested` rows for PR 1 are out of time
order: the later-timed request appears first. -/
def exDf1 : List Event :=
  [{ time := 36000, pr_number := 1, event_type := "review_requested" },
   { time := 18000, pr_number := 1, event_type := "review_requested" },
   { time := 72000, pr_number := 1, event_type := "review_approved" }]

/-- C1 (counterexample): on `exDf1` the code yields 10 h (first request row,
at time 36000 s), while the spec's earliest-request reading demands 15 h
(earliest request, at time 18000 s); the two disagree. -/
theorem C1_counterexample :
    calculate_pat exDf1 = some 10 ∧ calculate_pat_specModel exDf1 = some 15 ∧
      calculate_pat exDf1 ≠ calculate_pat_specModel exDf1 := by
  refine ⟨?_, ?_, ?_⟩
  · norm_num [calculate_pat, patDurations, firstTimeFor, uniqueList, uniqueAux,
      sortIntKeys, medianQ, sortQ, List.insertionSort, List.orderedInsert, exDf1,
      List.filter, List.filterMap]
  · norm_num [calculate_pat_specModel, minTimeFor, uniqueList, uniqueAux,
      sortIntKeys, medianQ, sortQ, List.insertionSort, List.orderedInsert, exDf1,
      List.filter, List.filterMap, List.min?]
  · intro hcontra
    rw [show calculate_pat exDf1 = some 10 from by
      norm_num [calculate_pat, patDurations, firstTimeFor, uniqueList, uniqueAux,
        sortIntKeys, medianQ, sortQ, List.insertionSort, List.orderedInsert, exDf1,
        List.filter, List.filterMap],
      show calculate_pat_specModel exDf1 = some 15 from by
      norm_num [calculate_pat_specModel, minTimeFor, uniqueList, uniqueAux,
        sortIntKeys, medianQ, sortQ, List.insertionSort, List.orderedInsert, exDf1,
        List.filter, List.filterMap, List.min?]] at hcontra
    norm_num at hcontra

/-! ## Review turnaround (components/charts/review_turnaround/data.py,
calculate_rtt_stats) -/

/-- Sort the rows of one PR ascending by time (`sort_values("time")`). -/
def sortEventsByTime (rows : List Event) : List Event :=
  List.insertionSort (fun a b => a.time ≤ b.time) rows

/-- Actionable first-response event types, in the order the code lists them
in its `isin(...)` filter. -/
def isReviewActionType (et : String) : Bool :=
  et == "review_approved" || et == "review_changes_requested" || et == "review_commented"

/-- First event of the PR strictly after the request, by the requested
reviewer as actor, with an actionable event type (the code's boolean mask
followed by `.iloc[0]`). -/
def matchForRequest (evs : List Event) (reqTime : Int) (target : String) : Option Event :=
  (evs.filter (fun e =>
    decide (reqTime < e.time) && (e.actor == some target) && isReviewActionType e.event_type)).head?

/-- The `for ... in review_requests.iterrows()` loop of `calculate_rtt_stats`:
requests with a falsy `target_user` are skipped, the first request with a
matching response yields the sample and the loop breaks. -/
def loopRequests (evs : List Event) : List Event → Option ℚ
  | [] => none
  | r :: rs =>
    match r.target_user with
    | none => loopRequests evs rs
    | some t =>
      if t == "" then loopRequests evs rs
      else
        match matchForRequest evs r.time t with
        | some e => some (((e.time - r.time : Int) : ℚ) / 3600)
        | none => loopRequests evs rs

/-- Turnaround sample of one PR, over its time-sorted events `evs` with
creation time `createdTime`: the request loop when the PR has
`review_requested` events, else creation to first actionable response. -/
def prSample (evs : List Event) (createdTime : Int) : Option ℚ :=
  let reqs := evs.filter (fun e => e.event_type == "review_requested")
  if reqs.isEmpty then
    ((evs.filter (fun e => isReviewActionType e.event_type)).head?).map
      (fun e => ((e.time - createdTime : Int) : ℚ) / 3600)
  else loopRequests evs reqs

/-- PR numbers having a `pr_created` row, in first-appearance order
(the code's `repo_df[...]["pr_number"].unique()`). -/
def createdPRs (df : List Event) : List Int :=
  uniqueList ((df.filter (fun e => e.event_type == "pr_created")).map (fun e => e.pr_number))

/-- Turnaround samples over all created PRs, one optional sample per PR. -/
def turnaroundTimes (df : List Event) : List ℚ :=
  (createdPRs df).filterMap (fun p =>
    let evs := sortEventsByTime (df.filter (fun e => e.pr_number == p))
    ((evs.filter (fun e => e.event_type == "pr_created")).head?).bind
      (fun c => prSample evs c.time))

/-- Aggregate turnaround statistics, from `calculate_rtt_stats`. -/
structure RttStats where
  median_hours : ℚ
  total_prs : Nat
  reviewed_prs : Nat
  review_rate : ℚ
  within_1h : ℚ
  within_4h : ℚ
  within_24h : ℚ
deriving DecidableEq, Repr

/-- Embedding of `calculate_rtt_stats`. -/
def calculate_rtt_stats (df : List Event) : Option RttStats :=
  if df.isEmpty then none
  else
    let ts := turnaroundTimes df
    if ts.isEmpty then none
    else
      some { median_hours := medianQ ts
             total_prs := (createdPRs df).length
             reviewed_prs := ts.length
             review_rate := ((ts.length : ℚ) / ((createdPRs df).length : ℚ)) * 100
             within_1h := ((ts.countP (fun q => decide (q ≤ 1)) : ℚ) / (ts.length : ℚ)) * 100
             within_4h := ((ts.countP (fun q => decide (q ≤ 4)) : ℚ) / (ts.length : ℚ)) * 100
             within_24h := ((ts.countP (fun q => decide (q ≤ 24)) : ℚ) / (ts.length : ℚ)) * 100 }

/-- Truthiness of a nullable string cell in Python: null or empty is falsy. -/
def nullish : Option String → Bool
  | none => true
  | some s => s == ""

/-- Spec-side response matching, written from the claim's words: the first
subsequent event whose actor equals the request's target user, whose type is
one of the three review actions, and whose time is strictly after the
request. -/
def matchForRequestSpec (evs : List Event) (r : Event) : Option Event :=
  evs.find? (fun e => decide (r.time < e.time ∧ e.actor = r.target_user ∧
    (e.event_type = "review_approved" ∨ e.event_type = "review_changes_requested" ∨
      e.event_type = "review_commented")))

/-- Spec-side per-PR turnaround sample: among the requests with a usable
target user, in time order, the first one yielding a match contributes the
sample (and only that one); with no requests, creation to first actionable
response. -/
def prSampleSpec (evs : List Event) (createdTime : Int) : Option ℚ :=
  let reqs := evs.filter (fun e => e.event_type == "review_requested")
  if reqs.isEmpty then
    ((evs.filter (fun e => isReviewActionType e.event_type)).head?).map
      (fun e => ((e.time - createdTime : Int) : ℚ) / 3600)
  else
    ((reqs.filter (fun r => !nullish r.target_user)).filterMap
      (fun r => (matchForRequestSpec evs r).map
        (fun e => ((e.time - r.time : Int) : ℚ) / 3600))).head?

/-- Spec-side turnaround samples over all created PRs. -/
def turnaroundTimesSpec (df : List Event) : List ℚ :=
  (createdPRs df).filterMap (fun p =>
    let evs := sortEventsByTime (df.filter (fun e => e.pr_number == p))
    ((evs.filter (fun e => e.event_type == "pr_created")).head?).bind
      (fun c => prSampleSpec evs c.time))

theorem bool_eq_of_iff {a b : Bool} (h : a = true ↔ b = true) : a = b := by
  cases a <;> cases b <;> simp_all

theorem find?_eq_head_filter (p : α → Bool) (l : List α) :
    l.find? p = (l.filter p).head? := by
  induction l with
  | nil => rfl
  | cons x xs ih =>
    by_cases h : p x
    · rw [List.find?_cons_of_pos _ h, List.filter_cons_of_pos h]
      rfl
    · rw [List.find?_cons_of_neg _ (by simpa using h),
        List.filter_cons_of_neg (by simpa using h), ih]

theorem matchForRequestSpec_eq (evs : List Event) (r : Event) (t : String)
    (ht : r.target_user = some t) :
    matchForRequestSpec evs r = matchForRequest evs r.time t := by
  unfold matchForRequestSpec matchForRequest
  rw [find?_eq_head_filter]
  congr 1
  apply List.filter_congr
  intro e _
  apply bool_eq_of_iff
  simp only [decide_eq_true_eq, Bool.and_eq_true, beq_iff_eq, isReviewActionType,
    Bool.or_eq_true, ht]
  tauto

theorem loopRequests_eq (evs : List Event) (rs : List Event) :
    loopRequests evs rs =
      ((rs.filter (fun r => !nullish r.target_user)).filterMap
        (fun r => (matchForRequestSpec evs r).map
          (fun e => ((e.time - r.time : Int) : ℚ) / 3600))).head? := by
  induction rs with
  | nil => rfl
  | cons r rs ih =>
    cases htu : r.target_user with
    | none =>
      rw [show loopRequests evs (r :: rs) = loopRequests evs rs from by
        simp [loopRequests, htu], ih]
      congr 2
      rw [List.filter_cons_of_neg]
      simp [nullish, htu]
    | some t =>
      by_cases ht : t = ""
      · subst ht
        rw [show loopRequests evs (r :: rs) = loopRequests evs rs from by
          simp [loopRequests, htu], ih]
        congr 2
        rw [List.filter_cons_of_neg]
        simp [nullish, htu]
      · have hkeep : (!nullish r.target_user) = true := by simp [nullish, htu, ht]
        rw [show List.filter (fun r => !nullish r.target_user) (r :: rs)
            = r :: List.filter (fun r => !nullish r.target_user) rs from by
          simp [List.filter_cons, hkeep]]
        cases hm : matchForRequest evs r.time t with
        | some e =>
          rw [show loopRequests evs (r :: rs) =
              some (((e.time - r.time : Int) : ℚ) / 3600) from by
            simp [loopRequests, htu, ht, hm]]
          rw [List.filterMap_cons_some]
          · rfl
          · rw [matchForRequestSpec_eq evs r t htu, hm]
            rfl
        | none =>
          rw [show loopRequests evs (r :: rs) = loopRequests evs rs from by
            simp [loopRequests, htu, ht, hm], ih]
          rw [List.filterMap_cons_none]
          rw [matchForRequestSpec_eq evs r t htu, hm]
          rfl

theorem prSample_eq_spec (evs : List Event) (ct : Int) :
    prSample evs ct = prSampleSpec evs ct := by
  unfold prSample prSampleSpec
  simp only []
  by_cases h : (evs.filter (fun e => e.event_type == "review_requested")).isEmpty
  · rw [if_pos h, if_pos h]
  · rw [if_neg h, if_neg h, loopRequests_eq]

/-- C2: the turnaround metric's per-PR samples follow the claimed policy —
requests processed in time order, falsy target users skipped, a request
matched to the first strictly-later actionable event by the requested
reviewer, exactly one sample per PR from the first matching request, and the
no-request fallback measured from PR creation to the first actionable
event. -/
theorem C2_turnaround_first_match (df : List Event) :
    turnaroundTimes df = turnaroundTimesSpec df := by
  unfold turnaroundTimes turnaroundTimesSpec
  simp only [prSample_eq_spec]

/-- Five PRs, each created at time 0 and merged k hours later, k = 1..5. -/
def exDf4 : List Event :=
  [{ time := 0, pr_number := 1, event_type := "pr_created" },
   { time := 3600, pr_number := 1, event_type := "pr_merged" },
   { time := 0, pr_number := 2, event_type := "pr_created" },
   { time := 7200, pr_number := 2, event_type := "pr_merged" },
   { time := 0, pr_number := 3, event_type := "pr_created" },
   { time := 10800, pr_number := 3, event_type := "pr_merged" },
   { time := 0, pr_number := 4, event_type := "pr_created" },
   { time := 14400, pr_number := 4, event_type := "pr_merged" },
   { time := 0, pr_number := 5, event_type := "pr_created" },
   { time := 18000, pr_number := 5, event_type := "pr_merged" }]

/-- C4: whenever `calculate_pmt` returns a result, the three reported values
are the 25th/50th/75th linear-interpolation percentiles of the duration
list, the reported median is the median of that list, and it equals the
50th-percentile value; for durations `[1, 2, 3, 4, 5]` hours the 50th
percentile is 3 and the median is 3. -/
theorem C4_merge_time_percentiles (df : List Event) (m : ℚ) (durs : List ℚ)
    (q : ℚ × ℚ × ℚ) (h : calculate_pmt df = some (m, durs, q)) :
    q.1 = percentileQ durs 25 ∧ q.2.1 = percentileQ durs 50 ∧
      q.2.2 = percentileQ durs 75 ∧ m = medianQ durs ∧ m = q.2.1 ∧
      medianQ [1, 2, 3, 4, 5] = 3 ∧ percentileQ [1, 2, 3, 4, 5] 50 = 3 := by
  have hconc : medianQ [1, 2, 3, 4, 5] = (3 : ℚ) := by
    norm_num [medianQ, sortQ, List.insertionSort, List.orderedInsert]
  have hconc50 : percentileQ [1, 2, 3, 4, 5] 50 = (3 : ℚ) := by
    norm_num [percentileQ, sortQ, List.insertionSort, List.orderedInsert]
  unfold calculate_pmt at h
  simp only [] at h
  by_cases hdf : df.isEmpty
  · rw [if_pos hdf] at h; cases h
  · rw [if_neg hdf] at h
    by_cases hd : (mergeDurations df).isEmpty
    · rw [if_pos hd] at h; cases h
    · rw [if_neg hd] at h
      have hne : mergeDurations df ≠ [] := by
        intro hnil; rw [hnil] at hd; exact hd rfl
      simp only [Option.some.injEq, Prod.mk.injEq] at h
      obtain ⟨hm, hdurs, hq⟩ := h
      subst hdurs
      subst hq
      refine ⟨rfl, rfl, rfl, hm.symm, ?_, hconc, hconc50⟩
      rw [← hm]
      exact medianQ_eq_percentileQ_50 _ hne

/-- Witness for C4: on `exDf4` the reported median equals the reported 50th
percentile. -/
theorem C4_witness :
    (calculate_pmt exDf4).map (fun r => r.1)
      = (calculate_pmt exDf4).map (fun r => r.2.2.2.1) := by
  obtain ⟨m, durs, q, h⟩ : ∃ m durs q, calculate_pmt exDf4 = some (m, durs, q) :=
    ⟨_, _, _, rfl⟩
  have hc := C4_merge_time_percentiles exDf4 m durs q h
  rw [h]
  simp only [Option.map_some']
  exact congrArg some hc.2.2.2.2.1

/-- C5: boundary behaviour of the size category function: XS below 10 lines,
S from 10 to 99, M from 100 to 499, L from 500 to 999, XL from 1000 on. -/
theorem C5_size_category_boundaries (L : Int) :
    (get_pr_size_category L = "XS (<10 lines)" ↔ L < 10) ∧
    (get_pr_size_category L = "S (10-99 lines)" ↔ 10 ≤ L ∧ L < 100) ∧
    (get_pr_size_category L = "M (100-499 lines)" ↔ 100 ≤ L ∧ L < 500) ∧
    (get_pr_size_category L = "L (500-999 lines)" ↔ 500 ≤ L ∧ L < 1000) ∧
    (get_pr_size_category L = "XL (1000+ lines)" ↔ 1000 ≤ L) := by
  unfold get_pr_size_category
  split_ifs with h1 h2 h3 h4 <;>
    refine ⟨?_, ?_, ?_, ?_, ?_⟩ <;> constructor <;> intro h <;>
      first
        | rfl
        | omega
        | exact absurd h (by decide)

/-! ## Review funnel (components/charts/review_funnel/data.py,
get_review_funnel_data) -/

/-- Event types of all rows of PR `p`, in row order (the `agg` list). -/
def prEventTypes (df : List Event) (p : Int) : List String :=
  (df.filter (fun e => e.pr_number == p)).map (fun e => e.event_type)

/-- Group keys of `groupby("pr_number")`: distinct PR numbers, ascending. -/
def groupKeys (df : List Event) : List Int :=
  sortIntKeys (uniqueList (df.map (fun e => e.pr_number)))

/-- Review stage counts, from `get_review_funnel_data`. -/
structure FunnelData where
  total_prs : Nat
  reviewed_prs : Nat
  approved_prs : Nat
deriving DecidableEq, Repr

/-- Whether any review action is present, with the candidate types in the
order the funnel module lists them. -/
def hasAnyReviewFunnel (evs : List String) : Bool :=
  ["review_commented", "review_changes_requested", "review_approved"].any
    (fun et => evs.contains et)

/-- Embedding of `get_review_funnel_data`. -/
def get_review_funnel_data (df : List Event) : Option FunnelData :=
  if df.isEmpty then none
  else
    let groups := (groupKeys df).map (fun p => prEventTypes df p)
    let total := groups.length
    let reviewed := groups.countP hasAnyReviewFunnel
    let approved := groups.countP (fun evs => evs.contains "review_approved")
    if total = 0 then none
    else some ⟨total, reviewed, approved⟩

/-- C6: the funnel counts are monotone: approved ≤ reviewed ≤ total. -/
theorem C6_funnel_monotone (df : List Event) (s : FunnelData)
    (h : get_review_funnel_data df = some s) :
    s.approved_prs ≤ s.reviewed_prs ∧ s.reviewed_prs ≤ s.total_prs := by
  unfold get_review_funnel_data at h
  simp only [] at h
  by_cases hdf : df.isEmpty
  · rw [if_pos hdf] at h; cases h
  · rw [if_neg hdf] at h
    by_cases ht : ((groupKeys df).map (fun p => prEventTypes df p)).length = 0
    · rw [if_pos ht] at h; cases h
    · rw [if_neg ht] at h
      cases h
      constructor
      · apply List.countP_mono_left
        intro evs _ hap
        simp only [hasAnyReviewFunnel, List.any_cons, List.any_nil, Bool.or_eq_true]
        simp only [hap]
        tauto
      · exact List.countP_le_length _

/-- PR 1 created and approved; PR 2 created only. -/
def exDf6 : List Event :=
  [{ time := 0, pr_number := 1, event_type := "pr_created" },
   { time := 3600, pr_number := 1, event_type := "review_approved" },
   { time := 0, pr_number := 2, event_type := "pr_created" }]

/-- Witness for C6 at a concrete input. -/
theorem C6_witness :
    get_review_funnel_data exDf6 = some ⟨2, 1, 1⟩ ∧ (1 ≤ 1 ∧ 1 ≤ 2) :=
  ⟨by decide, C6_funnel_monotone exDf6 ⟨2, 1, 1⟩ (by decide)⟩

/-! ## PR flow graph (components/charts/workflow/data.py, prepare_sankey_data) -/

/-- Per-PR event-type lists in group-key order, as `prepare_sankey_data`
builds them by `groupby("pr_number").agg({"event_type": list})`. -/
def sankeyGroups (df : List Event) : List (List String) :=
  (groupKeys df).map (fun p => prEventTypes df p)

/-- Total number of PRs. -/
def totalPRs (df : List Event) : Int := (sankeyGroups df).length

/-- PRs with a `review_requested` event. -/
def reviewRequestedCount (df : List Event) : Int :=
  ((sankeyGroups df).countP (fun evs => evs.contains "review_requested") : Nat)

/-- PRs with a review action but no `review_requested` event; the candidate
action types in the order the workflow module lists them. -/
def directReviewsCount (df : List Event) : Int :=
  ((sankeyGroups df).countP (fun evs =>
    (["review_commented", "review_changes_requested", "review_approved"].any
      (fun et => evs.contains et)) && !(evs.contains "review_requested")) : Nat)

/-- Remainder of the stage-1 partition: `total - review_requested - direct`. -/
def noReviewCount (df : List Event) : Int :=
  totalPRs df - reviewRequestedCount df - directReviewsCount df

/-- PRs with a `review_approved` event (global count). -/
def approvedPRsCount (df : List Event) : Int :=
  ((sankeyGroups df).countP (fun evs => evs.contains "review_approved") : Nat)

/-- PRs with a `review_commented` event and no `review_approved` (global). -/
def commentedPRsCount (df : List Event) : Int :=
  ((sankeyGroups df).countP (fun evs =>
    evs.contains "review_commented" && !(evs.contains "review_approved")) : Nat)

/-- PRs with both `review_approved` and `review_requested`. -/
def approvedFromRequested (df : List Event) : Int :=
  ((sankeyGroups df).countP (fun evs =>
    evs.contains "review_approved" && evs.contains "review_requested") : Nat)

/-- PRs with `review_commented` and `review_requested` but no approval. -/
def commentedFromRequested (df : List Event) : Int :=
  ((sankeyGroups df).countP (fun evs =>
    evs.contains "review_commented" && evs.contains "review_requested" &&
      !(evs.contains "review_approved")) : Nat)

/-- Shortfall of the review-requested path, assigned to `Approved`. -/
def remainingRequested (df : List Event) : Int :=
  reviewRequestedCount df - approvedFromRequested df - commentedFromRequested df

/-- PRs approved without a review request. -/
def approvedFromDirect (df : List Event) : Int :=
  ((sankeyGroups df).countP (fun evs =>
    evs.contains "review_approved" && !(evs.contains "review_requested")) : Nat)

/-- PRs commented without a review request and without approval. -/
def commentedFromDirect (df : List Event) : Int :=
  ((sankeyGroups df).countP (fun evs =>
    evs.contains "review_commented" && !(evs.contains "review_requested") &&
      !(evs.contains "review_approved")) : Nat)

/-- Shortfall of the direct-review path, assigned to `Commented`. -/
def remainingDirect (df : List Event) : Int :=
  directReviewsCount df - approvedFromDirect df - commentedFromDirect df

/-- One Sankey link record. -/
structure SankeyLink where
  source : String
  target : String
  value : Int
deriving DecidableEq, Repr

/-- Sankey output: node names and links. -/
structure SankeyData where
  nodes : List String
  links : List SankeyLink
deriving DecidableEq, Repr

/-- Embedding of `prepare_sankey_data`: the links are appended in the code's
order, guarded by the code's positivity conditions, and links with value ≤ 0
are filtered out at the end. -/
def prepare_sankey_data (df : List Event) : Option SankeyData :=
  if df.isEmpty then none
  else
    let links1 : List SankeyLink :=
      [⟨"PRs Created", "Review Requested", reviewRequestedCount df⟩,
       ⟨"PRs Created", "No Review", noReviewCount df⟩,
       ⟨"PRs Created", "Direct Review", directReviewsCount df⟩]
    let links2 : List SankeyLink :=
      if 0 < reviewRequestedCount df then
        (if 0 < approvedFromRequested df then
          [⟨"Review Requested", "Approved", approvedFromRequested df⟩] else []) ++
        (if 0 < commentedFromRequested df then
          [⟨"Review Requested", "Commented", commentedFromRequested df⟩] else []) ++
        (if 0 < remainingRequested df then
          [⟨"Review Requested", "Approved", remainingRequested df⟩] else [])
      else []
    let links3 : List SankeyLink :=
      if 0 < directReviewsCount df then
        (if 0 < approvedFromDirect df then
          [⟨"Direct Review", "Approved", approvedFromDirect df⟩] else []) ++
        (if 0 < commentedFromDirect df then
          [⟨"Direct Review", "Commented", commentedFromDirect df⟩] else []) ++
        (if 0 < remainingDirect df then
          [⟨"Direct Review", "Commented", remainingDirect df⟩] else [])
      else []
    let links4 : List SankeyLink :=
      (if 0 < approvedPRsCount df then
        [⟨"Approved", "Merged", approvedPRsCount df⟩] else []) ++
      (if 0 < commentedPRsCount df then
        [⟨"Commented", "Merged", commentedPRsCount df⟩] else []) ++
      (if 0 < noReviewCount df then
        [⟨"No Review", "Merged", noReviewCount df⟩] else [])
    some ⟨["PRs Created", "Review Requested", "No Review", "Direct Review",
           "Approved", "Commented", "Merged"],
          (links1 ++ links2 ++ links3 ++ links4).filter (fun l => 0 < l.value)⟩

/-- C7: the stage-1 partition sums exactly to the total PR count, and every
link present in the output has a strictly positive value. -/
theorem C7_sankey_conservation (df : List Event) (s : SankeyData)
    (h : prepare_sankey_data df = some s) :
    reviewRequestedCount df + directReviewsCount df + noReviewCount df = totalPRs df ∧
      ∀ l ∈ s.links, 0 < l.value := by
  constructor
  · unfold noReviewCount
    ring
  · intro l hl
    unfold prepare_sankey_data at h
    simp only [] at h
    by_cases hdf : df.isEmpty
    · rw [if_pos hdf] at h; cases h
    · rw [if_neg hdf] at h
      cases h
      simp only [List.mem_filter] at hl
      exact of_decide_eq_true hl.2

/-- PR 1: created, review requested, approved.  PR 2: created and review
requested with no response. -/
def exDf10 : List Event :=
  [{ time := 0, pr_number := 1, event_type := "pr_created" },
   { time := 3600, pr_number := 1, event_type := "review_requested",
     target_user := some "reviewer" },
   { time := 7200, pr_number := 1, event_type := "review_approved",
     actor := some "reviewer" },
   { time := 0, pr_number := 2, event_type := "pr_created" },
   { time := 3600, pr_number := 2, event_type := "review_requested",
     target_user := some "reviewer" }]

/-- Witness for C7 at a concrete input. -/
theorem C7_witness :
    (prepare_sankey_data exDf6).isSome = true ∧
      reviewRequestedCount exDf6 + directReviewsCount exDf6 + noReviewCount exDf6
        = totalPRs exDf6 := by
  obtain ⟨s, hs⟩ : ∃ s, prepare_sankey_data exDf6 = some s := ⟨_, rfl⟩
  exact ⟨by rw [hs]; rfl, (C7_sankey_conservation exDf6 s hs).1⟩

theorem filter_one_if_nil (P : SankeyLink → Bool) (c : Prop) [Decidable c]
    (l : SankeyLink) (h : P l = false) :
    List.filter P (if c then [l] else []) = [] := by
  split <;> simp [h]

theorem filter_three_ifs_nil (P : SankeyLink → Bool) (c1 c2 c3 : Prop)
    [Decidable c1] [Decidable c2] [Decidable c3] (l1 l2 l3 : SankeyLink)
    (h1 : P l1 = false) (h2 : P l2 = false) (h3 : P l3 = false) :
    List.filter P ((if c1 then [l1] else []) ++ (if c2 then [l2] else []) ++
      (if c3 then [l3] else [])) = [] := by
  split_ifs <;> simp [h1, h2, h3]

theorem filter_ite_nil (P : SankeyLink → Bool) (c : Prop) [Decidable c]
    (L : List SankeyLink) (h : List.filter P L = []) :
    List.filter P (if c then L else []) = [] := by
  split <;> simp [h]

/-- C10: when both the direct `approved_from_requested` link and the
shortfall `remaining_requested` link are positive, the output contains two
separate links from "Review Requested" to "Approved" carrying exactly those
two values, in that order — they are not merged. -/
theorem C10_two_separate_links (df : List Event) (s : SankeyData)
    (h : prepare_sankey_data df = some s)
    (hafr : 0 < approvedFromRequested df) (hrem : 0 < remainingRequested df) :
    ((s.links.filter (fun l => l.source == "Review Requested" && l.target == "Approved")).map
      (fun l => l.value)) = [approvedFromRequested df, remainingRequested df] := by
  have hle : approvedFromRequested df ≤ reviewRequestedCount df := by
    unfold approvedFromRequested reviewRequestedCount
    have hmono := List.countP_mono_left (l := sankeyGroups df)
      (p := fun evs => evs.contains "review_approved" && evs.contains "review_requested")
      (q := fun evs => evs.contains "review_requested")
      (fun evs _ hb => by
        simp only [Bool.and_eq_true] at hb
        exact hb.2)
    exact_mod_cast hmono
  have hrr : 0 < reviewRequestedCount df := lt_of_lt_of_le hafr hle
  unfold prepare_sankey_data at h
  simp only [] at h
  by_cases hdf : df.isEmpty
  · rw [if_pos hdf] at h; cases h
  · rw [if_neg hdf] at h
    cases h
    have s1 : (("PRs Created" : String) == "Review Requested") = false := by decide
    have s2 : (("Review Requested" : String) == "Review Requested") = true := by decide
    have s3 : (("Approved" : String) == "Approved") = true := by decide
    have s4 : (("Commented" : String) == "Approved") = false := by decide
    have s5 : (("Direct Review" : String) == "Review Requested") = false := by decide
    have s6 : (("Approved" : String) == "Review Requested") = false := by decide
    have s7 : (("Commented" : String) == "Review Requested") = false := by decide
    have s8 : (("No Review" : String) == "Review Requested") = false := by decide
    simp only [List.filter_filter]
    rw [if_pos hrr, if_pos hafr, if_pos hrem]
    simp only [List.filter_append]
    rw [filter_ite_nil _ _ _ (filter_three_ifs_nil _ _ _ _ _ _ _
        (by simp [s5]) (by simp [s5]) (by simp [s5])),
      filter_one_if_nil _ _ _ (by simp [s6]),
      filter_one_if_nil _ _ _ (by simp [s7]),
      filter_one_if_nil _ _ _ (by simp [s8]),
      filter_one_if_nil _ _ _ (by simp [s2, s4])]
    simp [s1, s2, s3, hafr, hrem, List.filter_cons]

/-- Witness for C10: on `exDf10`, PR 1 is approved after a request and PR 2
has an unanswered request, so both "Review Requested" → "Approved" links
appear, each with value 1. -/
theorem C10_witness :
    0 < approvedFromRequested exDf10 ∧ 0 < remainingRequested exDf10 ∧
      ∃ s, prepare_sankey_data exDf10 = some s ∧
        ((s.links.filter (fun l =>
          l.source == "Review Requested" && l.target == "Approved")).map
            (fun l => l.value)) = [1, 1] := by
  obtain ⟨s, hs⟩ : ∃ s, prepare_sankey_data exDf10 = some s := ⟨_, rfl⟩
  refine ⟨by decide, by decide, s, hs, ?_⟩
  have hres := C10_two_separate_links exDf10 s hs (by decide) (by decide)
  rw [hres]
  decide

/-! ## Review coverage (components/charts/review_coverage/data.py,
calculate_review_ratio_stats) -/

/-- Coverage result record. -/
structure CoverageStats where
  total_prs : Nat
  reviewed_prs : Nat
  unreviewed_prs : Int
  review_percentage : ℚ
deriving DecidableEq, Repr

/-- Whether any review action is present, candidate types in the coverage
module's order. -/
def hasAnyReviewCoverage (evs : List String) : Bool :=
  ["review_commented", "review_approved", "review_changes_requested"].any
    (fun et => evs.contains et)

/-- Embedding of `calculate_review_ratio_stats`. -/
def calculate_review_ratio_stats (df : List Event) : Option CoverageStats :=
  if df.isEmpty then none
  else
    let groups := (groupKeys df).map (fun p => prEventTypes df p)
    let total := groups.length
    let reviewed := groups.countP hasAnyReviewCoverage
    some { total_prs := total
           reviewed_prs := reviewed
           unreviewed_prs := (total : Int) - (reviewed : Int)
           review_percentage := if 0 < total then ((reviewed : ℚ) / (total : ℚ)) * 100 else 0 }

/-! ## Bot activity (components/charts/bot_analysis/data.py,
analyze_bot_activity) -/

/-- Keep the first row per `pr_number` (`drop_duplicates("pr_number")`). -/
def dropDupAux (seen : List Int) : List Event → List Event
  | [] => []
  | r :: rs =>
    if r.pr_number ∈ seen then dropDupAux seen rs
    else r :: dropDupAux (r.pr_number :: seen) rs

/-- The deduplicated `pr_created` rows, one per PR, first occurrence kept. -/
def prCreatedDedup (df : List Event) : List Event :=
  dropDupAux [] (df.filter (fun e => e.event_type == "pr_created"))

/-- Truthiness of the `actor` cell as the code tests it (`if author:`).
The pipeline's null marker is pandas NaN (the fetcher writes a missing login
as an empty CSV field and `read_csv` loads it back as NaN), and NaN is
truthy in Python, as is every non-empty string; only the empty string is
falsy. -/
def actorTruthy : Option String → Bool
  | none => true
  | some s => !(s == "")

/-- The record appended to `pr_authors` for one `pr_created` row, or `none`
when the row's actor cell is falsy and the row is skipped.  A null (NaN)
actor is truthy, so its row is appended with the null actor value; only an
empty-string cell is skipped. -/
def authorRecord (r : Event) : Option (Option String × Bool) :=
  match r.actor with
  | some a => if a == "" then none else some (some a, r.is_bot)
  | none => some (none, r.is_bot)

/-- Python `round(x, 1)` on an exact rational: round half to even at one
decimal place. -/
def pyRound1 (q : ℚ) : ℚ :=
  let t := q * 10
  let f : Int := ⌊t⌋
  let frac := t - (f : ℚ)
  (if frac < 1 / 2 then (f : ℚ)
   else if 1 / 2 < frac then (f : ℚ) + 1
   else if f % 2 = 0 then (f : ℚ) else (f : ℚ) + 1) / 10

/-- Bot-activity result record. -/
structure BotStats where
  total_prs : Nat
  bot_prs : Nat
  human_prs : Nat
  bot_count : Nat
  human_count : Nat
  bot_percentage : ℚ
  human_percentage : ℚ
  bot_breakdown : List (String × Nat)
deriving DecidableEq, Repr

/-- Embedding of `analyze_bot_activity`: deduplicated `pr_created` rows;
rows with a falsy actor cell skipped (which a null/NaN actor is not — it is
truthy and kept); totals and percentages over the kept rows; the per-actor
breakdown from `groupby(["actor", "is_bot"])`, which drops null keys, kept
to the bot rows and sorted descending by count. -/
def analyze_bot_activity (df : List Event) : Option BotStats :=
  if df.isEmpty then none
  else
    let pr_data := prCreatedDedup df
    if pr_data.isEmpty then none
    else
      let pr_authors := pr_data.filterMap authorRecord
      if pr_authors.isEmpty then none
      else
        let total := pr_authors.length
        let bot := pr_authors.countP (fun x => x.2)
        let human := pr_authors.countP (fun x => !x.2)
        let named := pr_authors.filterMap (fun x => x.1.map (fun a => (a, x.2)))
        let keys := List.insertionSort
          (fun a b : String × Bool => a.1 < b.1 ∨ (a.1 = b.1 ∧ a.2 ≤ b.2))
          (uniqueList named)
        let author_counts := keys.map (fun k => (k, named.countP (fun x => x == k)))
        let bot_rows := author_counts.filter (fun kc => kc.1.2)
        let sorted_bot := List.insertionSort
          (fun a b : (String × Bool) × Nat => b.2 ≤ a.2) bot_rows
        some { total_prs := total
               bot_prs := bot
               human_prs := human
               bot_count := bot
               human_count := human
               bot_percentage :=
                 pyRound1 (if 0 < total then ((bot : ℚ) / (total : ℚ)) * 100 else 0)
               human_percentage :=
                 pyRound1 (if 0 < total then ((human : ℚ) / (total : ℚ)) * 100 else 0)
               bot_breakdown := sorted_bot.map (fun kc => (kc.1.1, kc.2)) }

/-! ## Contribution breakdown (components/charts/contribution/data.py,
get_contribution_stats) -/

/-- Contribution result record. -/
structure ContributionStats where
  total_prs : Nat
  core_prs : Nat
  community_prs : Nat
  bot_prs : Nat
  core_percentage : ℚ
  community_percentage : ℚ
  bot_percentage : ℚ
deriving DecidableEq, Repr

/-- Embedding of `get_contribution_stats`. -/
def get_contribution_stats (df : List Event) : Option ContributionStats :=
  if df.isEmpty then none
  else
    let pr_data := prCreatedDedup df
    let total := pr_data.length
    if total = 0 then none
    else
      let bot := pr_data.countP (fun r => r.is_bot)
      let core := pr_data.countP (fun r => !r.is_bot && r.is_core_team)
      let community := pr_data.countP (fun r => !r.is_bot && !r.is_core_team)
      some { total_prs := total
             core_prs := core
             community_prs := community
             bot_prs := bot
             core_percentage :=
               if 0 < total then pyRound1 (((core : ℚ) / (total : ℚ)) * 100) else 0
             community_percentage :=
               if 0 < total then pyRound1 (((community : ℚ) / (total : ℚ)) * 100) else 0
             bot_percentage :=
               if 0 < total then pyRound1 (((bot : ℚ) / (total : ℚ)) * 100) else 0 }

theorem length_filterMap_eq_countP (f : α → Option β) (l : List α) :
    (l.filterMap f).length = l.countP (fun a => (f a).isSome) := by
  induction l with
  | nil => rfl
  | cons x xs ih =>
    cases hfx : f x with
    | none => simp [List.filterMap_cons, List.countP_cons, hfx, ih]
    | some b => simp [List.filterMap_cons, List.countP_cons, hfx, ih]

theorem countP_filterMap (f : α → Option β) (p : β → Bool) (l : List α) :
    (l.filterMap f).countP p = l.countP (fun a => ((f a).map p).getD false) := by
  induction l with
  | nil => rfl
  | cons x xs ih =>
    cases hfx : f x with
    | none => simp [List.filterMap_cons, List.countP_cons, hfx, ih]
    | some b => simp [List.filterMap_cons, List.countP_cons, hfx, ih]

theorem countP_add_countP_not (p : α → Bool) (l : List α) :
    l.countP p + l.countP (fun a => !p a) = l.length := by
  induction l with
  | nil => rfl
  | cons x xs ih =>
    cases hx : p x <;> simp [List.countP_cons, hx] <;> omega

theorem authorRecord_isSome (r : Event) : (authorRecord r).isSome = actorTruthy r.actor := by
  unfold authorRecord actorTruthy
  cases ha : r.actor with
  | none => rfl
  | some a => by_cases he : a == "" <;> simp [he]

/-- PR 1 created by a named author; PR 2 created with a null actor. -/
def exDf9 : List Event :=
  [{ time := 0, pr_number := 1, event_type := "pr_created", actor := some "alice" },
   { time := 0, pr_number := 2, event_type := "pr_created", actor := none }]

/-- One PR whose only `pr_created` row has a null actor. -/
def exDf9n : List Event :=
  [{ time := 0, pr_number := 1, event_type := "pr_created", actor := none }]

/-- C9 (counterexample): on `exDf9n`, whose only `pr_created` row has a null
actor, the function does not return `none` — it returns a result whose
`total_prs` is 1 and whose human count is 1, so the null-actor PR is counted
in the totals and denominators rather than excluded. -/
theorem C9_counterexample :
    analyze_bot_activity exDf9n ≠ none ∧
      (analyze_bot_activity exDf9n).map (fun s => s.total_prs) = some 1 ∧
      (analyze_bot_activity exDf9n).map (fun s => s.human_prs) = some 1 := by
  have hmap : (analyze_bot_activity exDf9n).map (fun s => s.total_prs) = some 1 := rfl
  refine ⟨fun h => ?_, hmap, rfl⟩
  rw [h] at hmap
  exact Option.noConfusion hmap

/-- C9 (amended): the bot-activity breakdown does not exclude PRs whose
`pr_created` row has a null actor — the pipeline's null marker (NaN) is
truthy under `if author:`, so `total_prs` counts every deduplicated
`pr_created` row with a truthy actor cell, null included; the bot/human
split sums to `total_prs` (the percentage denominator); when no row carries
an empty-string actor cell (the only falsy case, which the loader never
produces) `total_prs` equals the number of distinct created PRs; and an
input whose `pr_created` rows all have null actors yields a result, not
`none`. -/
theorem C9_bot_counts_null_authors :
    (∀ df s, analyze_bot_activity df = some s →
      s.total_prs = (prCreatedDedup df).countP (fun r => actorTruthy r.actor) ∧
      s.bot_prs + s.human_prs = s.total_prs ∧
      s.bot_prs = (prCreatedDedup df).countP (fun r => actorTruthy r.actor && r.is_bot) ∧
      ((∀ r ∈ prCreatedDedup df, r.actor ≠ some "") →
        s.total_prs = (prCreatedDedup df).length)) ∧
    (∀ df, (∀ r ∈ prCreatedDedup df, r.actor = none) →
      (prCreatedDedup df).isEmpty = false → analyze_bot_activity df ≠ none) := by
  constructor
  · intro df s h
    unfold analyze_bot_activity at h
    simp only [] at h
    by_cases hdf : df.isEmpty
    · rw [if_pos hdf] at h; cases h
    · rw [if_neg hdf] at h
      by_cases hpd : (prCreatedDedup df).isEmpty
      · rw [if_pos hpd] at h; cases h
      · rw [if_neg hpd] at h
        by_cases hpa : ((prCreatedDedup df).filterMap authorRecord).isEmpty
        · rw [if_pos hpa] at h; cases h
        · rw [if_neg hpa] at h
          cases h
          refine ⟨?_, ?_, ?_, ?_⟩
          · rw [length_filterMap_eq_countP]
            exact List.countP_congr (fun r _ => by rw [authorRecord_isSome])
          · exact countP_add_countP_not _ _
          · rw [countP_filterMap]
            refine List.countP_congr (fun r _ => ?_)
            unfold authorRecord actorTruthy
            cases ha : r.actor with
            | none => rfl
            | some a => by_cases he : a == "" <;> simp [he]
          · intro hne
            rw [length_filterMap_eq_countP]
            refine List.countP_eq_length.2 (fun r hr => ?_)
            rw [authorRecord_isSome]
            cases ha : r.actor with
            | none => rfl
            | some a =>
              have : a ≠ "" := fun he => hne r hr (by rw [ha, he])
              simp [actorTruthy, this]
  · intro df hall hne h
    unfold analyze_bot_activity at h
    simp only [] at h
    by_cases hdf : df.isEmpty
    · have hnil : df = [] := by simpa using hdf
      rw [hnil] at hne
      simp [prCreatedDedup, dropDupAux] at hne
    · rw [if_neg hdf, if_neg (by simp [hne])] at h
      have hlen : ((prCreatedDedup df).filterMap authorRecord).length
          = (prCreatedDedup df).length := by
        rw [length_filterMap_eq_countP]
        refine List.countP_eq_length.2 (fun r hr => ?_)
        rw [authorRecord_isSome, hall r hr]
        rfl
      by_cases hpa : ((prCreatedDedup df).filterMap authorRecord).isEmpty
      · have hnil2 : (prCreatedDedup df).filterMap authorRecord = [] := by
          simpa using hpa
        rw [hnil2] at hlen
        have : prCreatedDedup df = [] := List.length_eq_zero.1 hlen.symm
        rw [this] at hne
        simp at hne
      · rw [if_neg hpa] at h
        exact Option.noConfusion h

/-- Witness for C9 at concrete inputs: one mixed input and one whose only
created PR has a null actor. -/
theorem C9_witness :
    (analyze_bot_activity exDf9).map (fun s => s.total_prs)
        = some ((prCreatedDedup exDf9).countP (fun r => actorTruthy r.actor)) ∧
      (analyze_bot_activity exDf9).map (fun s => s.bot_prs + s.human_prs)
        = (analyze_bot_activity exDf9).map (fun s => s.total_prs) ∧
      analyze_bot_activity exDf9n ≠ none := by
  obtain ⟨s, hs⟩ : ∃ s, analyze_bot_activity exDf9 = some s := ⟨_, rfl⟩
  obtain ⟨huniv, hnonull⟩ := C9_bot_counts_null_authors
  obtain ⟨h1, h2, _, _⟩ := huniv exDf9 s hs
  refine ⟨?_, ?_, hnonull exDf9n (by decide) (by decide)⟩
  · rw [hs, Option.map_some']
    exact congrArg some h1
  · rw [hs, Option.map_some', Option.map_some']
    exact congrArg some h2

/-! ## Empty inputs (error handling across all metric modules) -/

/-- A single PR with only its creation event: no review request, no
approval, no merge, no review action. -/
def exDf8 : List Event :=
  [{ time := 0, pr_number := 1, event_type := "pr_created" }]

/-- C8: every embedded metric returns `none` on the empty collection, and
each metric with a matching precondition (approval time, merge time,
turnaround) returns `none` whenever no PR satisfies it. -/
theorem C8_empty_inputs_give_none :
    calculate_pat [] = none ∧ calculate_pmt [] = none ∧
    calculate_rtt_stats [] = none ∧ calculate_review_ratio_stats [] = none ∧
    get_review_funnel_data [] = none ∧ prepare_sankey_data [] = none ∧
    analyze_bot_activity [] = none ∧ get_contribution_stats [] = none ∧
    (∀ df, patDurations df = [] → calculate_pat df = none) ∧
    (∀ df, mergeDurations df = [] → calculate_pmt df = none) ∧
    (∀ df, turnaroundTimes df = [] → calculate_rtt_stats df = none) := by
  refine ⟨rfl, rfl, rfl, rfl, rfl, rfl, rfl, rfl, ?_, ?_, ?_⟩
  · intro df h
    unfold calculate_pat
    simp [h]
  · intro df h
    unfold calculate_pmt
    simp [h]
  · intro df h
    unfold calculate_rtt_stats
    simp [h]

/-- Witness for C8: a PR with nothing but its creation event yields `none`
from the three precondition-bearing metrics. -/
theorem C8_witness :
    patDurations exDf8 = [] ∧ calculate_pat exDf8 = none ∧
    mergeDurations exDf8 = [] ∧ calculate_pmt exDf8 = none ∧
    turnaroundTimes exDf8 = [] ∧ calculate_rtt_stats exDf8 = none := by
  obtain ⟨_, _, _, _, _, _, _, _, h9, h10, h11⟩ := C8_empty_inputs_give_none
  exact ⟨rfl, h9 exDf8 rfl, rfl, h10 exDf8 rfl, rfl, h11 exDf8 rfl⟩

/-! ## Input mutation (the in-place time conversion in calculate_pat and
calculate_pmt) -/

/-- A time cell of the event table: either the raw value read from the
store, or its parsed datetime form. -/
inductive TimeCell where
  | raw (s : String)
  | dt (s : String)
deriving DecidableEq, Repr

/-- Parsing a time cell (`pd.to_datetime`): raw values become datetimes,
already-parsed values are unchanged. -/
def to_datetime : TimeCell → TimeCell
  | TimeCell.raw s => TimeCell.dt s
  | TimeCell.dt s => TimeCell.dt s

/-- One row of the caller's event table, with its time-cell representation
tracked. -/
structure EventRow where
  time : TimeCell
  pr_number : Int
  event_type : String
deriving DecidableEq, Repr

/-- State of the caller's event collection right after the engine executes
the column assignment `repo_df["time"] = pd.to_datetime(repo_df["time"])`
(line 14 of approval_time/data.py and line 25 of pr_merge_time/data.py):
the assignment replaces every time cell of the caller's object in place. -/
def inputAfterTimeAssignment (df : List EventRow) : List EventRow :=
  df.map (fun e => { e with time := to_datetime e.time })

/-- C3: the metric computation modifies the input collection: on an input
whose time cells hold raw values, the caller's collection differs after the
in-place time conversion, so the input is not left unchanged. -/
theorem C3_input_mutated :
    inputAfterTimeAssignment
        [{ time := TimeCell.raw "2024-01-01 00:00:00", pr_number := 1,
           event_type := "pr_created" }]
      ≠ [{ time := TimeCell.raw "2024-01-01 00:00:00", pr_number := 1,
           event_type := "pr_created" }] := by
  decide

end CollabDev
